import Mathlib

/-!
Shallow embedding of the pixelshootingrange traffic-simulator core
(`bot_protection.py`, `simulator_api.py`, `simulator_py/*`) and proofs of the
specification claims about it.

Python `random.random()` / `random.randint` draws are modelled by oracle
streams of rationals / naturals; wall-clock times (`time.time()`,
`datetime.utcnow()`) are modelled as rationals passed explicitly; the external
SHA-256 digest (`hashlib.sha256(...).hexdigest()`) is modelled as an abstract
`String → String` parameter, since it is a stdlib call, not repository code.
-/

namespace Scenarios

/-- Oracle for the Python `random` module: `q n` is the value of the `n`-th
`random.random()` call, `z n` the value drawn by the `n`-th `random.randint`
call (already reduced into its range by the consumer). -/
structure Rand where
  q : ℕ → ℚ
  z : ℕ → ℕ

/-- Position in the two oracle streams: next float index, next int index. -/
structure RPos where
  fi : ℕ
  ii : ℕ

/-- Consume one `random.random()` draw. -/
def nextQ (r : Rand) (s : RPos) : ℚ × RPos :=
  (r.q s.fi, ⟨s.fi + 1, s.ii⟩)

/-- Consume one `random.randint(1, 5)` draw (value mapped into `[1, 5]`). -/
def nextZ15 (r : Rand) (s : RPos) : ℕ × RPos :=
  (1 + r.z s.ii % 5, ⟨s.fi, s.ii + 1⟩)

/-- `scenarios.py _generate_bounce_sequence`. -/
def generate_bounce_sequence : List String := ["page_view"]

/-- Body of the `for i in range(browse_loops)` loop in
`scenarios.py _generate_browse_sequence`; `n` is the number of remaining
iterations, `i` the Python loop index.  Each iteration draws exactly three
floats (Python evaluates `random.random()` before the `and`). -/
def browseSteps (r : Rand) (loops : ℕ) : ℕ → ℕ → RPos → List String × RPos
  | 0, _, s => ([], s)
  | n + 1, i, s =>
    let (d1, s) := nextQ r s
    let e1 : List String := if d1 < 7/10 then ["view_item"] else []
    let (d2, s) := nextQ r s
    let e2 : List String := if d2 < 2/5 then ["select_item"] else []
    let (d3, s) := nextQ r s
    let e3 : List String := if d3 < 3/10 ∧ i < loops - 1 then ["view_item_list"] else []
    let (rest, s) := browseSteps r loops n (i + 1) s
    (e1 ++ e2 ++ e3 ++ rest, s)

/-- `scenarios.py _generate_browse_sequence`. -/
def generate_browse_sequence (r : Rand) (s : RPos) : List String × RPos :=
  let (loops, s) := nextZ15 r s
  let (steps, s) := browseSteps r loops loops 0 s
  (["page_view", "view_item_list"] ++ steps, s)

/-- `scenarios.py _generate_cart_abandon_sequence`. -/
def generate_cart_abandon_sequence (r : Rand) (s : RPos) : List String × RPos :=
  let (evs, s) := generate_browse_sequence r s
  let evs := evs ++ ["add_to_cart"]
  let (d1, s) := nextQ r s
  let (evs, s) :=
    if d1 < 2/5 then
      let evs := evs ++ ["view_item_list"]
      let (d2, s) := nextQ r s
      let evs := if d2 < 3/5 then evs ++ ["view_item"] else evs
      let (d3, s) := nextQ r s
      let evs := if d3 < 1/2 then evs ++ ["add_to_cart"] else evs
      (evs, s)
    else (evs, s)
  let (d4, s) := nextQ r s
  if d4 < 3/10 then
    let evs := evs ++ ["remove_from_cart"]
    let (d5, s) := nextQ r s
    let evs := if d5 < 2/5 then evs ++ ["add_to_cart"] else evs
    (evs, s)
  else (evs, s)

/-- `scenarios.py _generate_checkout_abandon_sequence`. -/
def generate_checkout_abandon_sequence (r : Rand) (s : RPos) : List String × RPos :=
  let (evs, s) := generate_cart_abandon_sequence r s
  let evs := evs ++ ["begin_checkout"]
  let (d, s) := nextQ r s
  (if d < 3/5 then evs ++ ["add_payment_info"] else evs, s)

/-- `scenarios.py _generate_purchase_sequence`. -/
def generate_purchase_sequence (r : Rand) (s : RPos) : List String × RPos :=
  let (evs, s) := generate_checkout_abandon_sequence r s
  let evs := if "add_payment_info" ∈ evs then evs else evs ++ ["add_payment_info"]
  (evs ++ ["purchase"], s)

end Scenarios

namespace TrafficSources

/-- One entry of the configured weighted traffic-source list.  The Python code
stores sources as dicts; the fields below are the ones the repository reads,
with `weight` standing for `source.get('weight', 0)` (the `direct` fallback
dict has no `weight` key, hence weight `0`). -/
structure TrafficSource where
  name : String
  source : String
  medium : String
  referrer : String
  weight : ℚ
deriving DecidableEq

/-- `traffic_sources.py _create_direct_source`. -/
def create_direct_source : TrafficSource :=
  { name := "direct", source := "(direct)", medium := "(none)", referrer := "", weight := 0 }

/-- The `for source in traffic_sources` cumulative-weight loop of
`select_traffic_source`; returns `none` when the loop falls through. -/
def selectLoop (rand : ℚ) : ℚ → List TrafficSource → Option TrafficSource
  | _, [] => none
  | c, src :: rest =>
    if rand < c + src.weight then some src else selectLoop rand (c + src.weight) rest

/-- `traffic_sources.py select_traffic_source`, with the `random.random()`
draw passed in as `rand`. -/
def select_traffic_source (rand : ℚ) (sources : List TrafficSource) : TrafficSource :=
  if sources.isEmpty then create_direct_source
  else
    match selectLoop rand 0 sources with
    | some src => src
    | none =>
      match sources with
      | [] => create_direct_source
      | s0 :: _ => s0

/-- Sum of the configured weights, as accumulated by the selection loop. -/
def sumWeights (sources : List TrafficSource) : ℚ :=
  sources.foldl (fun c s => c + s.weight) 0

end TrafficSources

namespace BotProtection

/-- The per-client Flask session keys touched by the bot-protection layer
(`_csrf_token`, `_csrf_created`, `_pow_challenge`, `_session_created`,
`_simulator_job_id`); `none` models an absent key. -/
structure Challenge where
  nonce : String
  difficulty : ℕ
  created_at : ℚ
  expires_at : ℚ
deriving DecidableEq

structure Session where
  csrf_token : Option String
  csrf_created : Option ℚ
  pow_challenge : Option Challenge
  session_created : Option ℚ
  simulator_job_id : Option String
deriving DecidableEq

/-- `bot_protection.py POW_DIFFICULTY`. -/
def POW_DIFFICULTY : ℕ := 4

/-- `bot_protection.py POW_CHALLENGE_EXPIRY_SECONDS`. -/
def POW_CHALLENGE_EXPIRY_SECONDS : ℚ := 300

/-- `ProofOfWork.generate_challenge`, with the random nonce passed in. -/
def generate_challenge (nonce : String) (now : ℚ) : Challenge :=
  { nonce := nonce, difficulty := POW_DIFFICULTY, created_at := now,
    expires_at := now + POW_CHALLENGE_EXPIRY_SECONDS }

/-- `ProofOfWork.verify_solution`; `hexdigest` models
`hashlib.sha256(·.encode()).hexdigest()`.  `if not nonce or not solution`
rejects empty strings; `hash_result.startswith('0' * difficulty)` is the
prefix test on the digest's character list. -/
def verify_solution (hexdigest : String → String) (nonce solution : String)
    (difficulty : ℕ) : Bool :=
  if nonce = "" ∨ solution = "" then false
  else (List.replicate difficulty '0').isPrefixOf (hexdigest (nonce ++ solution)).data

/-- `ProofOfWork.is_challenge_valid`: `if not challenge: return False`, then
`time.time() < expires_at`. -/
def is_challenge_valid (challenge : Option Challenge) (now : ℚ) : Bool :=
  match challenge with
  | none => false
  | some c => now < c.expires_at

/-- Outcome of the proof-of-work stage of `require_bot_protection`
(lines 254-268): the two 400 rejections, or fall-through to the next check. -/
inductive PowOutcome where
  | expiredOrMissing
  | invalidSolution
  | passed
deriving DecidableEq

/-- The proof-of-work stage of `require_bot_protection`: reads
`session['_pow_challenge']`, checks validity, verifies the submitted
`pow_solution`, and pops the challenge from the session after a successful
verification. -/
def powStage (hexdigest : String → String) (now : ℚ) (pow_solution : String)
    (s : Session) : PowOutcome × Session :=
  let challenge := s.pow_challenge
  if ¬ is_challenge_valid challenge now then (.expiredOrMissing, s)
  else
    match challenge with
    | none => (.expiredOrMissing, s)
    | some c =>
      if ¬ verify_solution hexdigest c.nonce pow_solution c.difficulty then
        (.invalidSolution, s)
      else
        (.passed, { s with pow_challenge := none })

/-- `CSRFProtection.generate_token`, with the random token passed in. -/
def generate_token (token : String) (now : ℚ) (s : Session) : String × Session :=
  (token, { s with csrf_token := some token, csrf_created := some now })

/-- `CSRFProtection.validate_token`.  The request token is optional
(`get_token_from_request` may return `None`); `if not token` also rejects the
empty string, `secrets.compare_digest` is string equality, and the stored
token is popped only after a successful comparison. -/
def validate_token (token : Option String) (s : Session) : Bool × Session :=
  match token with
  | none => (false, s)
  | some t =>
    if t = "" then (false, s)
    else
      match s.csrf_token with
      | none => (false, s)
      | some stored =>
        if stored = "" then (false, s)
        else if ¬ (t = stored) then (false, s)
        else (true, { s with csrf_token := none, csrf_created := none })

/-- Number of `true` results in a sequence of `validate_token` calls threaded
through the session (no token re-issue in between). -/
def validateCount (s : Session) : List (Option String) → ℕ
  | [] => 0
  | t :: ts =>
    let r := validate_token t s
    (if r.1 then 1 else 0) + validateCount r.2 ts

end BotProtection

namespace UserPool

/-- `user_pool.py User` dataclass; ISO timestamp strings are modelled as
rationals (ISO-8601 strings from `datetime.utcnow()` compare exactly like the
instants they denote). -/
structure User where
  id : String
  created_at : ℚ
  session_count : ℕ
  last_visit : Option ℚ
  is_new : Bool
deriving DecidableEq

/-- One value of the `self._users` dict: the record written by
`save_user_state`. -/
structure UserData where
  created_at : ℚ
  session_count : ℕ
  last_visit : Option ℚ
deriving DecidableEq

/-- `UserPool` instance state.  The two Python dicts are modelled as
insertion-ordered association lists, matching Python dict iteration order;
the opaque storage-state blobs are modelled as strings. -/
structure PoolState where
  returning_user_rate : ℚ
  max_pool_size : ℕ
  users : List (String × UserData)
  storage_states : List (String × String)

/-- Keys present in the `users` config dict handed to `UserPool.__init__`
(`config.get(..., default)` reads). -/
structure PoolConfig where
  returning_user_rate : Option ℚ
  max_pool_size : Option ℕ

/-- `UserPool.__init__`: `config.get('returning_user_rate', 0.35)` and
`config.get('max_pool_size', 50)`. -/
def init (config : PoolConfig) : PoolState :=
  { returning_user_rate := config.returning_user_rate.getD (7/20),
    max_pool_size := config.max_pool_size.getD 50,
    users := [], storage_states := [] }

/-- `config.py DEFAULT_USERS`. -/
def DEFAULT_USERS : PoolConfig :=
  { returning_user_rate := some (7/20), max_pool_size := some 200 }

/-- Python dict assignment `d[k] = v`: update in place (keeping the key's
insertion position) when present, append otherwise. -/
def updateAssoc {α : Type} (l : List (String × α)) (k : String) (v : α) :
    List (String × α) :=
  if l.any (fun p => decide (p.1 = k)) then l.map (fun p => if p.1 = k then (k, v) else p)
  else l ++ [(k, v)]

/-- `_create_new_user` (the generated id and `datetime.utcnow()` are passed
in). -/
def create_new_user (now : ℚ) (newId : String) : User :=
  { id := newId, created_at := now, session_count := 0, last_visit := none, is_new := true }

/-- `_user_from_data`. -/
def user_from_data (uid : String) (d : UserData) : User :=
  { id := uid, created_at := d.created_at, session_count := d.session_count,
    last_visit := d.last_visit, is_new := false }

/-- `_calculate_return_weight` (timestamps are already well-formed in this
model, so the `except` branch returning `1.0` for unparsable strings cannot
trigger). -/
def calculate_return_weight (d : UserData) (now : ℚ) : ℚ :=
  match d.last_visit with
  | none => 1
  | some t =>
    let seconds_since := now - t
    if seconds_since < 60 then 1/2
    else if seconds_since < 300 then 2
    else 3/2

/-- The `for user_id, user_data, weight in weighted_users` loop of
`_get_returning_user`: `rand -= weight; if rand <= 0: return ...`. -/
def selUserLoop (rand : ℚ) : List (String × UserData × ℚ) → Option (String × UserData)
  | [] => none
  | (uid, d, w) :: rest =>
    if rand - w ≤ 0 then some (uid, d) else selUserLoop (rand - w) rest

/-- `_get_returning_user`, with the `random.random()` draw passed as
`rSelect`.  The state is threaded explicitly; the method performs no writes,
so every branch returns the input state. -/
def get_returning_user (s : PoolState) (rSelect now : ℚ) (newId : String) :
    User × PoolState :=
  match s.users with
  | [] => (create_new_user now newId, s)
  | (fid, fd) :: _ =>
    let weighted := s.users.map (fun p => (p.1, p.2, calculate_return_weight p.2 now))
    let total_weight := (weighted.map (fun w => w.2.2)).sum
    let rand := rSelect * total_weight
    match selUserLoop rand weighted with
    | some (uid, d) => (user_from_data uid d, s)
    | none => (user_from_data fid fd, s)

/-- `UserPool.get_user`, with the `random.random()` draws and the fresh-id
generation passed in as oracle values. -/
def get_user (s : PoolState) (rShould rSelect now : ℚ) (newId : String) :
    User × PoolState :=
  let should_return := rShould < s.returning_user_rate
  let has_existing_users := 0 < s.users.length
  if should_return ∧ has_existing_users then get_returning_user s rSelect now newId
  else (create_new_user now newId, s)

/-- Sort key of `_enforce_pool_limit`:
`x[1].get('last_visit') or '1970-01-01'` — an unset last visit sorts as the
epoch (time `0`). -/
def evictKey (d : UserData) : ℚ := d.last_visit.getD 0

/-- Comparison used for `sorted(self._users.items(), key=...)`. -/
def poolLE (a b : String × UserData) : Prop := evictKey a.2 ≤ evictKey b.2

instance : DecidableRel poolLE := fun a b =>
  inferInstanceAs (Decidable (evictKey a.2 ≤ evictKey b.2))

instance : IsTotal (String × UserData) poolLE :=
  ⟨fun a b => le_total (evictKey a.2) (evictKey b.2)⟩

instance : IsTrans (String × UserData) poolLE :=
  ⟨fun _ _ _ h1 h2 => le_trans h1 h2⟩

/-- The `while len(self._users) > self.max_pool_size` eviction loop:
`sorted_users.pop(0)`, `del self._users[old_user_id]`,
`self._storage_states.pop(old_user_id, None)`. -/
def evictLoop (maxSize : ℕ) :
    List (String × UserData) → List (String × String) → List (String × UserData) →
    List (String × UserData) × List (String × String)
  | users, storage, [] => (users, storage)
  | users, storage, (uid, _) :: rest =>
    if users.length ≤ maxSize then (users, storage)
    else evictLoop maxSize (users.filter (fun p => !decide (p.1 = uid)))
      (storage.filter (fun p => !decide (p.1 = uid))) rest

/-- `_enforce_pool_limit`.  Python's `sorted` is a stable sort, as is
`List.insertionSort`, and a stable sort's output is uniquely determined, so
the two agree on ties as well. -/
def enforce_pool_limit (s : PoolState) : PoolState :=
  if s.users.length ≤ s.max_pool_size then s
  else
    let sorted_users := s.users.insertionSort poolLE
    let r := evictLoop s.max_pool_size s.users s.storage_states sorted_users
    { s with users := r.1, storage_states := r.2 }

/-- `save_user_state`: rewrite the user record (`(user.session_count or 0) + 1`,
`last_visit = utcnow`), store the blob, then enforce the pool cap. -/
def save_user_state (s : PoolState) (user : User) (storage_state : String)
    (now : ℚ) : PoolState :=
  let d : UserData :=
    { created_at := user.created_at, session_count := user.session_count + 1,
      last_visit := some now }
  enforce_pool_limit
    { s with users := updateAssoc s.users user.id d,
             storage_states := updateAssoc s.storage_states user.id storage_state }

/-- `load_storage_state`. -/
def load_storage_state (s : PoolState) (uid : String) : Option String :=
  (s.storage_states.find? (fun p => p.1 == uid)).map Prod.snd

/-- Arguments of one `save_user_state` call. -/
structure SaveCall where
  user : User
  storage : String
  now : ℚ

/-- A sequence of `save_user_state` calls. -/
def runSaves (s : PoolState) : List SaveCall → PoolState
  | [] => s
  | c :: cs => runSaves (save_user_state s c.user c.storage c.now) cs

end UserPool

namespace SessionRunner

/-- The pool-relevant effects of `session_runner.run_session`: the browser
work (context creation, navigation, event clicks, state capture) is external;
`_create_browser_context` only reads `load_storage_state`, and
`save_user_state` runs exactly once, after all browser steps succeed.  Any
exception before state capture returns the failure dict without touching the
pool.  `succeeds` abstracts "no exception was raised"; `capturedState` is the
blob `context.storage_state()` returned. -/
def run_session (s : UserPool.PoolState) (user : UserPool.User) (succeeds : Bool)
    (capturedState : String) (now : ℚ) : Bool × UserPool.PoolState :=
  if succeeds then (true, UserPool.save_user_state s user capturedState now)
  else (false, s)

end SessionRunner

namespace Runner

/-- Oracle for one `run_batch` execution: `launchStop i` is the
`stop_event.is_set()` value observed by the launch loop before creating task
`i`; `taskStop i` the value observed inside task `i` (its two pre-run checks
collapsed, as no counter is touched between them); `outcome i` is
`result.get('success')` of session `i`. -/
structure BatchOracle where
  launchStop : ℕ → Bool
  taskStop : ℕ → Bool
  outcome : ℕ → Bool

/-- `runner.py JobResult` (the fields the API thread reads). -/
structure JobResult where
  total_sessions : ℕ
  successful : ℕ
  failed : ℕ
deriving DecidableEq

/-- Indices of tasks created by the `for i in range(num_sessions)` loop,
which breaks at the first launch check that sees the stop event set. -/
def launchedTasks (o : BatchOracle) (num : ℕ) : List ℕ :=
  (List.range num).takeWhile (fun i => !(o.launchStop i))

/-- Tasks that actually run a session and update the progress counters
(launched tasks whose own stop check was clear).  A task that observes the
stop event returns `None` without touching any counter. -/
def countedSessions (o : BatchOracle) (num : ℕ) : List ℕ :=
  (launchedTasks o num).filter (fun i => !(o.taskStop i))

/-- `runner.py run_batch`: `progress.total` is fixed to `num_sessions`; each
counted session increments `completed` and exactly one of
`successful`/`failed`; the returned `JobResult` copies
`total_sessions = progress.total` and the two outcome counters. -/
def run_batch (num : ℕ) (o : BatchOracle) : JobResult :=
  let counted := countedSessions o num
  { total_sessions := num,
    successful := (counted.filter (fun i => o.outcome i)).length,
    failed := (counted.filter (fun i => !(o.outcome i))).length }

end Runner

namespace SimulatorApi

/-- `simulator_api.py SimulatorJob` dataclass. -/
structure SimulatorJob where
  job_id : String
  status : String
  total : ℕ
  completed : ℕ
  successful : ℕ
  failed : ℕ
  started_at : ℚ
  finished_at : Option ℚ
  error : Option String
  stop_requested : Bool
deriving DecidableEq

/-- `job_store.get(job_id)` over the insertion-ordered store. -/
def lookupJob : List (String × SimulatorJob) → String → Option SimulatorJob
  | [], _ => none
  | (k, v) :: rest, jobId => if k = jobId then some v else lookupJob rest jobId

/-- `stop_simulator`: 404 for an unknown id, 400 (`'Job is not running'`)
when the status is not `pending`/`running` — checked *before* the session
ownership test — 403 when `session['_simulator_job_id']` differs, otherwise
a plain `jsonify(...)` response (HTTP 200), setting `stop_requested` and
firing the registered stop event if one exists.  The result is
(HTTP status, updated store, whether a stop event was signalled). -/
def stop_simulator (store : List (String × SimulatorJob))
    (sessionJobId : Option String) (jobId : String) (hasStopEvent : Bool) :
    ℕ × List (String × SimulatorJob) × Bool :=
  match lookupJob store jobId with
  | none => (404, store, false)
  | some job =>
    if ¬ (job.status = "pending" ∨ job.status = "running") then (400, store, false)
    else if ¬ (sessionJobId = some jobId) then (403, store, false)
    else
      (200,
       store.map (fun p =>
         if p.1 = jobId then (p.1, { p.2 with stop_requested := true }) else p),
       hasStopEvent)

/-- The final counter/status assignment of `_run_simulator_thread` on the
non-exception path: `job.completed = result.total_sessions`,
`job.successful = result.successful`, `job.failed = result.failed`, status
`'stopped'` iff `job.stop_requested` else `'completed'`, and `finished_at`
stamped in the `finally` block. -/
def finish_job (job : SimulatorJob) (r : Runner.JobResult) (tEnd : ℚ) :
    SimulatorJob :=
  { job with
    completed := r.total_sessions,
    successful := r.successful,
    failed := r.failed,
    status := if job.stop_requested then "stopped" else "completed",
    finished_at := some tEnd }

end SimulatorApi

namespace RateLimiter

/-- `bot_protection.py RATE_LIMIT_HOURLY`. -/
def RATE_LIMIT_HOURLY : ℕ := 3

/-- `bot_protection.py RATE_LIMIT_DAILY`. -/
def RATE_LIMIT_DAILY : ℕ := 10

/-- `RateLimiter` state: the two per-IP timestamp dicts (an absent key and an
empty list are observationally identical through `dict.get(ip, [])`, so both
dicts are modelled as total functions) and `self._last_cleanup`. -/
structure RLState where
  hourly : String → List ℚ
  daily : String → List ℚ
  lastCleanup : ℚ

/-- `RateLimiter.__init__` at construction time `t0`. -/
def init (t0 : ℚ) : RLState :=
  { hourly := fun _ => [], daily := fun _ => [], lastCleanup := t0 }

/-- `RateLimiter._cleanup`: a full-table purge, at most once per 60 seconds.
Dropping an IP whose list becomes empty is identified with mapping it to the
empty list. -/
def cleanup (now : ℚ) (s : RLState) : RLState :=
  if now - s.lastCleanup < 60 then s
  else
    { hourly := fun ip => (s.hourly ip).filter (fun t => decide (now - 3600 < t)),
      daily := fun ip => (s.daily ip).filter (fun t => decide (now - 86400 < t)),
      lastCleanup := now }

/-- `RateLimiter.check_and_record` (the two `time.time()` reads inside one
call are identified as a single instant `now`). -/
def check_and_record (s : RLState) (ip : String) (now : ℚ) : Bool × RLState :=
  let s := cleanup now s
  let hourly_requests := (s.hourly ip).filter (fun t => decide (now - 3600 < t))
  if RATE_LIMIT_HOURLY ≤ hourly_requests.length then (false, s)
  else
    let daily_requests := (s.daily ip).filter (fun t => decide (now - 86400 < t))
    if RATE_LIMIT_DAILY ≤ daily_requests.length then (false, s)
    else
      (true,
       { s with
         hourly := Function.update s.hourly ip (s.hourly ip ++ [now]),
         daily := Function.update s.daily ip (s.daily ip ++ [now]) })

/-- Run a sequence of `check_and_record` calls; returns the final state and
the sublist of calls that were allowed (and hence recorded). -/
def runCalls (s : RLState) : List (String × ℚ) → RLState × List (String × ℚ)
  | [] => (s, [])
  | (ip, t) :: rest =>
    let r := check_and_record s ip t
    let rec' := runCalls r.2 rest
    (rec'.1, (if r.1 then [(ip, t)] else []) ++ rec'.2)

/-- The timestamps of the allowed (hence recorded) requests of one IP in a
call sequence. -/
def allowedTimes (s : RLState) (calls : List (String × ℚ)) (ip : String) : List ℚ :=
  ((runCalls s calls).2.filter (fun p => decide (p.1 = ip))).map Prod.snd

end RateLimiter

namespace BotProtection

/-- Modelled from the spec: the hex digest has at least `difficulty` leading
'0' characters.  This follows the specification's words and is compared
against `verify_solution`. -/
def specHasLeadingZeros (digest : String) (difficulty : ℕ) : Bool :=
  (List.replicate difficulty '0').isPrefixOf digest.data

end BotProtection

namespace Fixtures

/-- A digest function whose output never has a leading zero: a verification
attempt under it fails.  The behaviour under scrutiny (challenge/token
consumption) never inspects digest values, so any function works here. -/
def digestFF : String → String := fun _ => "ffff"

/-- A digest function whose output always meets difficulty 4. -/
def digestZero : String → String := fun _ => "00000"

def cexChallenge : BotProtection.Challenge :=
  { nonce := "ab", difficulty := 1, created_at := 0, expires_at := 300 }

/-- A session holding a live challenge, as after `GET /challenge`. -/
def cexSession : BotProtection.Session :=
  { csrf_token := none, csrf_created := none, pow_challenge := some cexChallenge,
    session_created := none, simulator_job_id := none }

/-- `cexSession` with the challenge consumed. -/
def cexSessionPopped : BotProtection.Session :=
  { cexSession with pow_challenge := none }

/-- A session holding a stored CSRF token "aa". -/
def csrfSession : BotProtection.Session :=
  { csrf_token := some "aa", csrf_created := some 0, pow_challenge := none,
    session_created := none, simulator_job_id := none }

/-- `csrfSession` with the token consumed. -/
def csrfSessionPopped : BotProtection.Session :=
  { csrfSession with csrf_token := none, csrf_created := none }

/-- First entry of `config.py DEFAULT_TRAFFIC_SOURCES` (weight 0.40). -/
def exSource : TrafficSources.TrafficSource :=
  { name := "organic_google", source := "google", medium := "organic",
    referrer := "https://www.google.com/", weight := 2/5 }

/-- A job that already finished. -/
def jobDone : SimulatorApi.SimulatorJob :=
  { job_id := "j1", status := "completed", total := 10, completed := 10,
    successful := 9, failed := 1, started_at := 0, finished_at := some 5,
    error := none, stop_requested := false }

/-- A job still pending. -/
def jobPending : SimulatorApi.SimulatorJob :=
  { job_id := "j2", status := "pending", total := 4, completed := 0,
    successful := 0, failed := 0, started_at := 0, finished_at := none,
    error := none, stop_requested := false }

def storeDone : List (String × SimulatorApi.SimulatorJob) := [("j1", jobDone)]

def storePending : List (String × SimulatorApi.SimulatorJob) := [("j2", jobPending)]

/-- A running job on which a stop has been requested. -/
def jobStopping : SimulatorApi.SimulatorJob :=
  { job_id := "j3", status := "running", total := 2, completed := 0,
    successful := 0, failed := 0, started_at := 0, finished_at := none,
    error := none, stop_requested := true }

/-- A `run_batch` execution where the stop event becomes set after the first
launch check: one session runs (successfully), the second is never launched. -/
def stopAfterOneOracle : Runner.BatchOracle :=
  { launchStop := fun i => decide (1 ≤ i), taskStop := fun _ => false,
    outcome := fun _ => true }

/-- An oracle with the stop event never set and every session succeeding. -/
def calmOracle : Runner.BatchOracle :=
  { launchStop := fun _ => false, taskStop := fun _ => false,
    outcome := fun _ => true }

/-- Four immediate calls from one IP: the fourth must be rejected. -/
def fourCalls : List (String × ℚ) := [("a", 0), ("a", 1), ("a", 2), ("a", 3)]

/-- A pool record last visited at time 10. -/
def udA : UserPool.UserData := { created_at := 0, session_count := 1, last_visit := some 10 }

/-- A pool record last visited at time 5 (the least recently visited). -/
def udB : UserPool.UserData := { created_at := 0, session_count := 1, last_visit := some 5 }

/-- A pool over capacity: two users, cap 1; enforcing the cap must evict
"ub" (last visit 5) and keep "ua" (last visit 10). -/
def poolTwo : UserPool.PoolState :=
  { returning_user_rate := 0, max_pool_size := 1,
    users := [("ua", udA), ("ub", udB)], storage_states := [] }

def userA : UserPool.User :=
  { id := "ua", created_at := 0, session_count := 0, last_visit := none, is_new := true }

def userB : UserPool.User :=
  { id := "ub", created_at := 0, session_count := 0, last_visit := none, is_new := true }

/-- A `users` config with only `max_pool_size` set (to 1). -/
def cfgOne : UserPool.PoolConfig := { returning_user_rate := none, max_pool_size := some 1 }

/-- Two saves of distinct users into a pool with cap 1. -/
def twoSaves : List UserPool.SaveCall :=
  [{ user := userA, storage := "sa", now := 5 }, { user := userB, storage := "sb", now := 10 }]

end Fixtures

section Claims

open Scenarios TrafficSources BotProtection UserPool Runner SimulatorApi RateLimiter Fixtures in
/-- C6: for every purchase-scenario event sequence, under all random draws,
`add_payment_info` occurs, `purchase` occurs, and `purchase` is the final
element. -/
theorem c6_purchase_sequence (r : Scenarios.Rand) (s : Scenarios.RPos) :
    "add_payment_info" ∈ (Scenarios.generate_purchase_sequence r s).1 ∧
    "purchase" ∈ (Scenarios.generate_purchase_sequence r s).1 ∧
    (Scenarios.generate_purchase_sequence r s).1.getLast? = some "purchase" := by
  rcases hq : Scenarios.generate_checkout_abandon_sequence r s with ⟨evs, s1⟩
  simp only [Scenarios.generate_purchase_sequence, hq]
  by_cases h : "add_payment_info" ∈ evs <;>
    simp [h, List.getLast?_concat]

end Claims

theorem le_foldl_weights (sources : List TrafficSources.TrafficSource) (c : ℚ)
    (h : ∀ t ∈ sources, 0 ≤ t.weight) :
    c ≤ sources.foldl (fun a s => a + s.weight) c := by
  induction sources generalizing c with
  | nil => simp
  | cons src rest ih =>
    have h0 : 0 ≤ src.weight := h src (List.mem_cons_self _ _)
    calc c ≤ c + src.weight := by linarith
    _ ≤ rest.foldl (fun a s => a + s.weight) (c + src.weight) :=
        ih _ (fun t ht => h t (List.mem_cons_of_mem _ ht))

theorem selectLoop_eq_none (sources : List TrafficSources.TrafficSource)
    (c rand : ℚ) (h : ∀ t ∈ sources, 0 ≤ t.weight)
    (hsum : sources.foldl (fun a s => a + s.weight) c ≤ rand) :
    TrafficSources.selectLoop rand c sources = none := by
  induction sources generalizing c with
  | nil => rfl
  | cons src rest ih =>
    have hrest : ∀ t ∈ rest, 0 ≤ t.weight := fun t ht => h t (List.mem_cons_of_mem _ ht)
    simp only [List.foldl_cons] at hsum
    have hcw : c + src.weight ≤ rand := by
      have := le_foldl_weights rest (c + src.weight) hrest
      linarith
    simp only [TrafficSources.selectLoop, if_neg (not_lt.mpr hcw)]
    exact ih _ hrest hsum

/-- C9 counterexample: with one configured source of weight 0.4 and a draw of
0.5, the cumulative loop matches nothing and `select_traffic_source` returns
the *first configured source*, not the synthetic direct source the claim
promises for the none-match case. -/
theorem c9_counterexample :
    TrafficSources.select_traffic_source (1/2) [Fixtures.exSource] = Fixtures.exSource ∧
    Fixtures.exSource ≠ TrafficSources.create_direct_source := by
  have hloop : TrafficSources.selectLoop (1/2) 0 [Fixtures.exSource] = none := by
    norm_num [TrafficSources.selectLoop, Fixtures.exSource]
  refine ⟨?_, ?_⟩
  · unfold TrafficSources.select_traffic_source
    simp only [List.isEmpty_cons, Bool.false_eq_true, if_false, hloop]
  intro h
  have := congrArg TrafficSources.TrafficSource.name h
  simp [Fixtures.exSource, TrafficSources.create_direct_source] at this

/-- C9 (amended): `select_traffic_source` performs a cumulative-weight draw
over the configured weighted list; with no sources configured it returns the
synthetic direct source, but when the draw exceeds the cumulative weight
total (none match) it returns the *first configured source*
(`traffic_sources[0]`), not the direct source. -/
theorem c9_amended (rand : ℚ) :
    TrafficSources.select_traffic_source rand [] = TrafficSources.create_direct_source ∧
    ∀ (s0 : TrafficSources.TrafficSource) (rest : List TrafficSources.TrafficSource),
      (∀ t ∈ s0 :: rest, 0 ≤ t.weight) →
      TrafficSources.sumWeights (s0 :: rest) ≤ rand →
      TrafficSources.select_traffic_source rand (s0 :: rest) = s0 := by
  refine ⟨rfl, fun s0 rest hw hsum => ?_⟩
  have hnone := selectLoop_eq_none (s0 :: rest) 0 rand hw
    (by simpa [TrafficSources.sumWeights] using hsum)
  simp [TrafficSources.select_traffic_source, hnone]

/-- C9 witness: the amended theorem applied to a concrete draw and list. -/
theorem c9_witness :
    TrafficSources.select_traffic_source 2 [Fixtures.exSource] = Fixtures.exSource ∧
    TrafficSources.select_traffic_source 2 [] = TrafficSources.create_direct_source :=
  ⟨(c9_amended 2).2 Fixtures.exSource []
      (by intro t ht; rw [List.mem_singleton] at ht; subst ht; norm_num [Fixtures.exSource])
      (by norm_num [TrafficSources.sumWeights, Fixtures.exSource]),
   (c9_amended 2).1⟩

/-- C5 counterexample: the claimed equivalence fails at an empty nonce with
difficulty 0 — every digest has at least 0 leading zeros, yet
`verify_solution` returns false because `if not nonce or not solution`
rejects first (independently of the digest function). -/
theorem c5_counterexample :
    ¬ ∀ (hexdigest : String → String) (nonce solution : String) (difficulty : ℕ),
        BotProtection.verify_solution hexdigest nonce solution difficulty = true ↔
        BotProtection.specHasLeadingZeros (hexdigest (nonce ++ solution)) difficulty = true := by
  intro h
  have h2 := (h (fun _ => "") "" "x" 0).2 (by decide)
  simp [BotProtection.verify_solution] at h2

/-- C5 (amended): `verify_solution` returns true iff the nonce and the
solution are both non-empty and the hex SHA-256 digest of `nonce ++ solution`
has at least `difficulty` leading '0' characters. -/
theorem c5_amended (hexdigest : String → String) (nonce solution : String)
    (difficulty : ℕ) :
    BotProtection.verify_solution hexdigest nonce solution difficulty = true ↔
    (nonce ≠ "" ∧ solution ≠ "" ∧
     BotProtection.specHasLeadingZeros (hexdigest (nonce ++ solution)) difficulty = true) := by
  rcases eq_or_ne nonce "" with h1 | h1 <;>
    rcases eq_or_ne solution "" with h2 | h2 <;>
      simp [BotProtection.verify_solution, BotProtection.specHasLeadingZeros, h1, h2]

theorem powStage_cases (hexdigest : String → String) (now : ℚ) (sol : String)
    (s : BotProtection.Session) :
    BotProtection.powStage hexdigest now sol s =
      (BotProtection.PowOutcome.passed, { s with pow_challenge := none }) ∨
    ((BotProtection.powStage hexdigest now sol s).1 ≠ BotProtection.PowOutcome.passed ∧
     (BotProtection.powStage hexdigest now sol s).2 = s) := by
  simp only [BotProtection.powStage]
  split
  · right; simp
  · split
    · right; simp
    · split
      · right; simp
      · left; rfl

theorem powStage_eval_invalid :
    BotProtection.powStage Fixtures.digestFF 10 "x" Fixtures.cexSession =
      (BotProtection.PowOutcome.invalidSolution, Fixtures.cexSession) := by
  have hvalid : (10 : ℚ) < 300 := by norm_num
  have hver : BotProtection.verify_solution Fixtures.digestFF "ab" "x" 1 = false := by decide
  simp [BotProtection.powStage, BotProtection.is_challenge_valid, Fixtures.cexSession,
    Fixtures.cexChallenge, hvalid, hver]

theorem powStage_eval_passed :
    BotProtection.powStage Fixtures.digestZero 10 "x" Fixtures.cexSession =
      (BotProtection.PowOutcome.passed, Fixtures.cexSessionPopped) := by
  have hvalid : (10 : ℚ) < 300 := by norm_num
  have hver : BotProtection.verify_solution Fixtures.digestZero "ab" "x" 1 = true := by decide
  simp [BotProtection.powStage, BotProtection.is_challenge_valid, Fixtures.cexSession,
    Fixtures.cexChallenge, Fixtures.cexSessionPopped, hvalid, hver]

/-- C2 counterexample: a request with a live, valid challenge and a wrong
solution gets the 400 invalid-solution response but the session is returned
*unchanged* — the challenge is still stored, contradicting the claim that the
challenge is deleted after every verification attempt. -/
theorem c2_counterexample :
    (BotProtection.powStage Fixtures.digestFF 10 "x" Fixtures.cexSession).1 =
      BotProtection.PowOutcome.invalidSolution ∧
    ((BotProtection.powStage Fixtures.digestFF 10 "x" Fixtures.cexSession).2).pow_challenge =
      some Fixtures.cexChallenge := by
  rw [powStage_eval_invalid]
  exact ⟨rfl, rfl⟩

/-- C2 (amended): the session-stored challenge is deleted only when
verification *succeeds*; after a successful attempt the challenge is gone and
a second verification attempt fails with the expired-or-missing rejection,
while a failed attempt leaves the session (and the challenge) unchanged. -/
theorem c2_amended (hexdigest : String → String) (now now2 : ℚ) (sol sol2 : String)
    (s s' : BotProtection.Session) :
    (BotProtection.powStage hexdigest now sol s = (BotProtection.PowOutcome.passed, s') →
      s'.pow_challenge = none ∧
      (BotProtection.powStage hexdigest now2 sol2 s').1 =
        BotProtection.PowOutcome.expiredOrMissing) ∧
    ((BotProtection.powStage hexdigest now sol s).1 = BotProtection.PowOutcome.invalidSolution →
      (BotProtection.powStage hexdigest now sol s).2 = s) := by
  have hc := powStage_cases hexdigest now sol s
  constructor
  · intro h
    rcases hc with hc | hc
    · rw [h] at hc
      have hs' : s' = { s with pow_challenge := none } := (Prod.ext_iff.mp hc).2
      have hnone : s'.pow_challenge = none := by rw [hs']
      refine ⟨hnone, ?_⟩
      simp [BotProtection.powStage, BotProtection.is_challenge_valid, hnone]
    · exact absurd (by rw [h]) hc.1
  · intro h
    rcases hc with hc | hc
    · rw [hc] at h; simp at h
    · exact hc.2

/-- C2 witness: the amended theorem applied to a session holding a live
challenge: a correct solution consumes it, after which a second attempt is
rejected as missing; a wrong solution leaves the session untouched. -/
theorem c2_witness :
    Fixtures.cexSessionPopped.pow_challenge = none ∧
    (BotProtection.powStage Fixtures.digestZero 20 "x" Fixtures.cexSessionPopped).1 =
      BotProtection.PowOutcome.expiredOrMissing ∧
    (BotProtection.powStage Fixtures.digestFF 10 "x" Fixtures.cexSession).2 =
      Fixtures.cexSession := by
  have h1 := (c2_amended Fixtures.digestZero 10 20 "x" "x" Fixtures.cexSession
    Fixtures.cexSessionPopped).1 powStage_eval_passed
  have h2 := (c2_amended Fixtures.digestFF 10 10 "x" "x" Fixtures.cexSession
    Fixtures.cexSession).2 (by rw [powStage_eval_invalid])
  exact ⟨h1.1, h1.2, h2⟩

theorem validate_cases (t : Option String) (s : BotProtection.Session) :
    BotProtection.validate_token t s = (false, s) ∨
    BotProtection.validate_token t s =
      (true, { s with csrf_token := none, csrf_created := none }) := by
  rcases t with _ | a
  · left; rfl
  · rcases hst : s.csrf_token with _ | stored
    · by_cases ha : a = "" <;> left <;> simp [BotProtection.validate_token, hst, ha]
    · by_cases ha : a = ""
      · left; simp [BotProtection.validate_token, ha]
      · by_cases hs0 : stored = ""
        · left; simp [BotProtection.validate_token, hst, ha, hs0]
        · by_cases hae : a = stored
          · right; simp [BotProtection.validate_token, hst, ha, hs0, hae]
          · left; simp [BotProtection.validate_token, hst, ha, hs0, hae]

theorem validate_token_of_no_stored (t : Option String) (s : BotProtection.Session)
    (h : s.csrf_token = none) :
    BotProtection.validate_token t s = (false, s) := by
  rcases t with _ | a
  · rfl
  · simp only [BotProtection.validate_token]
    split
    · rfl
    · rw [h]

theorem validateCount_of_no_stored (ts : List (Option String))
    (s : BotProtection.Session) (h : s.csrf_token = none) :
    BotProtection.validateCount s ts = 0 := by
  induction ts with
  | nil => rfl
  | cons t ts ih =>
    simp only [BotProtection.validateCount, validate_token_of_no_stored t s h]
    simpa using ih

/-- C3 counterexample: validating a wrong token against a stored one returns
false and leaves the stored token *in place* — `validate_token` does not
consume the token when the comparison fails, contradicting the claim that a
performed validation always deletes it. -/
theorem c3_counterexample :
    (BotProtection.validate_token (some "bb") Fixtures.csrfSession).1 = false ∧
    ((BotProtection.validate_token (some "bb") Fixtures.csrfSession).2).csrf_token =
      some "aa" := by
  have h : BotProtection.validate_token (some "bb") Fixtures.csrfSession =
      (false, Fixtures.csrfSession) := by
    simp [BotProtection.validate_token, Fixtures.csrfSession]
  rw [h]
  exact ⟨rfl, rfl⟩

/-- C3 (amended): `validate_token` consumes the stored CSRF token only on a
*successful* validation; after a success every further call returns false
until a new token is issued (so in any call sequence without re-issue at most
one validation succeeds), while a failed validation leaves the session — and
the stored token — unchanged. -/
theorem c3_amended :
    (∀ (t : String) (s s' : BotProtection.Session),
       BotProtection.validate_token (some t) s = (true, s') →
       s'.csrf_token = none ∧
       ∀ t2, (BotProtection.validate_token t2 s').1 = false) ∧
    (∀ (t : Option String) (s : BotProtection.Session),
       (BotProtection.validate_token t s).1 = false →
       (BotProtection.validate_token t s).2 = s) ∧
    (∀ (s : BotProtection.Session) (ts : List (Option String)),
       BotProtection.validateCount s ts ≤ 1) := by
  refine ⟨fun t s s' h => ?_, fun t s h => ?_, fun s ts => ?_⟩
  · rcases validate_cases (some t) s with hc | hc
    · rw [h] at hc; simp at hc
    · have hs' : s' = { s with csrf_token := none, csrf_created := none } :=
        (Prod.ext_iff.mp (h.symm.trans hc)).2
      have hnone : s'.csrf_token = none := by rw [hs']
      exact ⟨hnone, fun t2 => by rw [validate_token_of_no_stored t2 s' hnone]⟩
  · rcases validate_cases t s with hc | hc
    · rw [hc]
    · rw [hc] at h; simp at h
  · induction ts generalizing s with
    | nil => simp [BotProtection.validateCount]
    | cons t ts ih =>
      simp only [BotProtection.validateCount]
      rcases validate_cases t s with hc | hc
      · rw [hc]; simpa using ih s
      · rw [hc]
        have h0 : BotProtection.validateCount
            { s with csrf_token := none, csrf_created := none } ts = 0 :=
          validateCount_of_no_stored ts _ rfl
        simp [h0]

/-- C3 witness: the amended theorem at a concrete session: a correct
validation consumes token "aa", a wrong one leaves the session unchanged, and
a two-call replay sequence yields at most one success. -/
theorem c3_witness :
    Fixtures.csrfSessionPopped.csrf_token = none ∧
    (BotProtection.validate_token (some "aa") Fixtures.csrfSessionPopped).1 = false ∧
    (BotProtection.validate_token (some "bb") Fixtures.csrfSession).2 =
      Fixtures.csrfSession ∧
    BotProtection.validateCount Fixtures.csrfSession [some "aa", some "aa"] ≤ 1 := by
  have hsucc : BotProtection.validate_token (some "aa") Fixtures.csrfSession =
      (true, Fixtures.csrfSessionPopped) := by
    simp [BotProtection.validate_token, Fixtures.csrfSession, Fixtures.csrfSessionPopped]
  have hfail : (BotProtection.validate_token (some "bb") Fixtures.csrfSession).1 = false := by
    simp [BotProtection.validate_token, Fixtures.csrfSession]
  have h1 := c3_amended.1 "aa" Fixtures.csrfSession Fixtures.csrfSessionPopped hsucc
  exact ⟨h1.1, h1.2 (some "aa"), c3_amended.2.1 _ _ hfail, c3_amended.2.2 _ _⟩

theorem lookupJob_map_set (store : List (String × SimulatorApi.SimulatorJob))
    (jid : String) (g : SimulatorApi.SimulatorJob → SimulatorApi.SimulatorJob)
    (j : SimulatorApi.SimulatorJob) (h : SimulatorApi.lookupJob store jid = some j) :
    SimulatorApi.lookupJob
      (store.map (fun p => if p.1 = jid then (p.1, g p.2) else p)) jid = some (g j) := by
  induction store with
  | nil => simp [SimulatorApi.lookupJob] at h
  | cons kv rest ih =>
    rcases kv with ⟨k, v⟩
    by_cases hk : k = jid
    · subst hk
      simp only [SimulatorApi.lookupJob, eq_self_iff_true, if_true, Option.some.injEq] at h
      subst h
      dsimp only [List.map_cons]
      rw [if_pos rfl]
      simp [SimulatorApi.lookupJob]
    · simp only [SimulatorApi.lookupJob, if_neg hk] at h
      dsimp only [List.map_cons]
      rw [if_neg hk]
      simp only [SimulatorApi.lookupJob, if_neg hk]
      exact ih h

/-- C7 counterexample: stopping an existing job whose status is `completed`
(with the owning session) returns HTTP 400, not the 409 Conflict the claim
states. -/
theorem c7_counterexample :
    (SimulatorApi.stop_simulator Fixtures.storeDone (some "j1") "j1" true).1 = 400 := by
  simp [SimulatorApi.stop_simulator, SimulatorApi.lookupJob, Fixtures.storeDone,
    Fixtures.jobDone]

/-- C7 (amended): `stop_simulator` returns 404 for an unknown job id, 400
(not 409) when the job's status is not `pending`/`running` — this check runs
*before* the ownership check — 403 when the caller's session did not submit
the job, and otherwise a 200 response (not 202), setting the job's stop flag
and signalling the registered stop event. -/
theorem c7_amended (store : List (String × SimulatorApi.SimulatorJob))
    (sid : Option String) (jid : String) (ev : Bool) :
    (SimulatorApi.lookupJob store jid = none →
       SimulatorApi.stop_simulator store sid jid ev = (404, store, false)) ∧
    (∀ j, SimulatorApi.lookupJob store jid = some j →
       ¬ (j.status = "pending" ∨ j.status = "running") →
       SimulatorApi.stop_simulator store sid jid ev = (400, store, false)) ∧
    (∀ j, SimulatorApi.lookupJob store jid = some j →
       (j.status = "pending" ∨ j.status = "running") → sid ≠ some jid →
       SimulatorApi.stop_simulator store sid jid ev = (403, store, false)) ∧
    (∀ j, SimulatorApi.lookupJob store jid = some j →
       (j.status = "pending" ∨ j.status = "running") → sid = some jid →
       (SimulatorApi.stop_simulator store sid jid ev).1 = 200 ∧
       (SimulatorApi.stop_simulator store sid jid ev).2.2 = ev ∧
       SimulatorApi.lookupJob (SimulatorApi.stop_simulator store sid jid ev).2.1 jid =
         some { j with stop_requested := true }) := by
  refine ⟨fun h => ?_, fun j hj hst => ?_, fun j hj hst hsid => ?_, fun j hj hst hsid => ?_⟩
  · simp [SimulatorApi.stop_simulator, h]
  · simp only [SimulatorApi.stop_simulator, hj]
    rw [if_pos hst]
  · simp only [SimulatorApi.stop_simulator, hj]
    rw [if_neg (not_not_intro hst), if_pos hsid]
  · simp only [SimulatorApi.stop_simulator, hj]
    rw [if_neg (not_not_intro hst), if_neg (not_not_intro hsid)]
    exact ⟨rfl, rfl,
      lookupJob_map_set store jid (fun x => { x with stop_requested := true }) j hj⟩

/-- C7 witness: the amended theorem at concrete stores: unknown id gives 404,
a completed job gives 400, a foreign session gives 403, and the owner
stopping a pending job gets 200. -/
theorem c7_witness :
    SimulatorApi.stop_simulator [] (some "z") "z" false = (404, [], false) ∧
    SimulatorApi.stop_simulator Fixtures.storeDone (some "j1") "j1" true =
      (400, Fixtures.storeDone, false) ∧
    SimulatorApi.stop_simulator Fixtures.storePending none "j2" true =
      (403, Fixtures.storePending, false) ∧
    (SimulatorApi.stop_simulator Fixtures.storePending (some "j2") "j2" true).1 = 200 := by
  refine ⟨(c7_amended [] (some "z") "z" false).1 rfl,
    (c7_amended Fixtures.storeDone (some "j1") "j1" true).2.1 Fixtures.jobDone ?_ ?_,
    (c7_amended Fixtures.storePending none "j2" true).2.2.1 Fixtures.jobPending ?_ ?_ ?_,
    ((c7_amended Fixtures.storePending (some "j2") "j2" true).2.2.2 Fixtures.jobPending
      ?_ ?_ rfl).1⟩
  · simp [SimulatorApi.lookupJob, Fixtures.storeDone]
  · simp [Fixtures.jobDone]
  · simp [SimulatorApi.lookupJob, Fixtures.storePending]
  · simp [Fixtures.jobPending]
  · simp
  · simp [SimulatorApi.lookupJob, Fixtures.storePending]
  · simp [Fixtures.jobPending]

/-- C10: `UserPool.get_user` never mutates the pool — every branch (new user,
returning user, weighted-draw fallback) returns the state unchanged — and a
session that fails before state capture leaves the pool exactly as it was. -/
theorem c10_get_user_frame (s : UserPool.PoolState) (rShould rSelect now : ℚ)
    (newId : String) (user : UserPool.User) (cap : String) (t : ℚ) :
    (UserPool.get_user s rShould rSelect now newId).2 = s ∧
    (SessionRunner.run_session s user false cap t).2 = s := by
  constructor
  · simp only [UserPool.get_user, UserPool.get_returning_user]
    split
    · split
      · rfl
      · split <;> rfl
    · rfl
  · rfl

theorem length_filter_partition (l : List ℕ) (p : ℕ → Bool) :
    (l.filter (fun i => p i)).length + (l.filter (fun i => !(p i))).length = l.length := by
  induction l with
  | nil => rfl
  | cons a l ih =>
    by_cases h : p a = true
    · simp only [List.filter_cons, h, Bool.not_true, Bool.false_eq_true, if_true, if_false,
        List.length_cons]
      omega
    · have h' : p a = false := by simpa using h
      simp only [List.filter_cons, h', Bool.not_false, Bool.false_eq_true, if_true, if_false,
        List.length_cons]
      omega

/-- C1 counterexample: a job of 2 requested sessions, stopped after one
session ran successfully, finishes as `stopped` with `completed` overwritten
to the requested total 2 while `successful + failed = 1` — the claimed
equality fails for exactly the stopped case the claim singles out. -/
theorem c1_counterexample :
    (SimulatorApi.finish_job Fixtures.jobStopping
      (Runner.run_batch 2 Fixtures.stopAfterOneOracle) 100).status = "stopped" ∧
    (SimulatorApi.finish_job Fixtures.jobStopping
      (Runner.run_batch 2 Fixtures.stopAfterOneOracle) 100).completed = 2 ∧
    (SimulatorApi.finish_job Fixtures.jobStopping
        (Runner.run_batch 2 Fixtures.stopAfterOneOracle) 100).successful +
      (SimulatorApi.finish_job Fixtures.jobStopping
        (Runner.run_batch 2 Fixtures.stopAfterOneOracle) 100).failed = 1 := by
  have hrb : Runner.run_batch 2 Fixtures.stopAfterOneOracle =
      { total_sessions := 2, successful := 1, failed := 0 } := by decide
  refine ⟨?_, ?_, ?_⟩ <;>
    simp [SimulatorApi.finish_job, hrb, Fixtures.jobStopping]

/-- C1 (amended): on the thread's non-exception path, a job finishing
`completed` (no stop requested, stop event never observed) satisfies
`completed = successful + failed`; but a job finishing `stopped` has
`completed` set to the *requested* session total, and `successful + failed`
— the sessions actually run — can only be bounded by it. -/
theorem c1_amended (num : ℕ) (o : Runner.BatchOracle)
    (job : SimulatorApi.SimulatorJob) (tEnd : ℚ) :
    (job.stop_requested = false →
      (∀ i, o.launchStop i = false) → (∀ i, o.taskStop i = false) →
      (SimulatorApi.finish_job job (Runner.run_batch num o) tEnd).status = "completed" ∧
      (SimulatorApi.finish_job job (Runner.run_batch num o) tEnd).completed =
        (SimulatorApi.finish_job job (Runner.run_batch num o) tEnd).successful +
        (SimulatorApi.finish_job job (Runner.run_batch num o) tEnd).failed) ∧
    (job.stop_requested = true →
      (SimulatorApi.finish_job job (Runner.run_batch num o) tEnd).status = "stopped" ∧
      (SimulatorApi.finish_job job (Runner.run_batch num o) tEnd).completed = num ∧
      (SimulatorApi.finish_job job (Runner.run_batch num o) tEnd).successful +
        (SimulatorApi.finish_job job (Runner.run_batch num o) tEnd).failed ≤ num) := by
  constructor
  · intro hs hl ht
    have hlaunch : Runner.launchedTasks o num = List.range num := by
      simp [Runner.launchedTasks, List.takeWhile_eq_self_iff, hl]
    have hcount : Runner.countedSessions o num = List.range num := by
      simp [Runner.countedSessions, hlaunch, List.filter_eq_self, ht]
    refine ⟨by simp [SimulatorApi.finish_job, hs], ?_⟩
    have hpart := length_filter_partition (List.range num) o.outcome
    simp only [List.length_range] at hpart
    simp only [SimulatorApi.finish_job, Runner.run_batch, hcount]
    omega
  · intro hs
    refine ⟨by simp [SimulatorApi.finish_job, hs], by simp [SimulatorApi.finish_job,
      Runner.run_batch], ?_⟩
    have hpart := length_filter_partition (Runner.countedSessions o num) o.outcome
    have hlen : (Runner.countedSessions o num).length ≤ num := by
      calc (Runner.countedSessions o num).length
          ≤ (Runner.launchedTasks o num).length := List.length_filter_le _ _
        _ ≤ (List.range num).length := (List.takeWhile_sublist _).length_le
        _ = num := List.length_range num
    simp only [SimulatorApi.finish_job, Runner.run_batch]
    omega

/-- C1 witness: the amended theorem at 2 requested sessions, once with a calm
run (finishes `completed`, counters add up) and once with a stop after one
launch (finishes `stopped`). -/
theorem c1_witness :
    ((SimulatorApi.finish_job Fixtures.jobPending
        (Runner.run_batch 2 Fixtures.calmOracle) 7).status = "completed" ∧
     (SimulatorApi.finish_job Fixtures.jobPending
        (Runner.run_batch 2 Fixtures.calmOracle) 7).completed =
       (SimulatorApi.finish_job Fixtures.jobPending
          (Runner.run_batch 2 Fixtures.calmOracle) 7).successful +
       (SimulatorApi.finish_job Fixtures.jobPending
          (Runner.run_batch 2 Fixtures.calmOracle) 7).failed) ∧
    ((SimulatorApi.finish_job Fixtures.jobStopping
        (Runner.run_batch 2 Fixtures.stopAfterOneOracle) 100).status = "stopped" ∧
     (SimulatorApi.finish_job Fixtures.jobStopping
        (Runner.run_batch 2 Fixtures.stopAfterOneOracle) 100).completed = 2 ∧
     (SimulatorApi.finish_job Fixtures.jobStopping
          (Runner.run_batch 2 Fixtures.stopAfterOneOracle) 100).successful +
       (SimulatorApi.finish_job Fixtures.jobStopping
          (Runner.run_batch 2 Fixtures.stopAfterOneOracle) 100).failed ≤ 2) :=
  ⟨(c1_amended 2 Fixtures.calmOracle Fixtures.jobPending 7).1 rfl
      (fun _ => rfl) (fun _ => rfl),
   (c1_amended 2 Fixtures.stopAfterOneOracle Fixtures.jobStopping 100).2 rfl⟩

theorem pool_key_unique {α β : Type} {l : List (α × β)} (h : (l.map Prod.fst).Nodup)
    {p q : α × β} (hp : p ∈ l) (hq : q ∈ l) (hk : p.1 = q.1) : p = q := by
  by_contra hne
  have hpw : l.Pairwise (fun a b => a.1 ≠ b.1) := List.pairwise_map.mp h
  have hsymm : Symmetric (fun a b : α × β => a.1 ≠ b.1) := fun a b hab he => hab he.symm
  exact List.Pairwise.forall hsymm hpw hp hq hne hk

theorem perm_cons_filter_key (l : List (String × UserPool.UserData)) (uid : String)
    (d : UserPool.UserData) (hnd : (l.map Prod.fst).Nodup) (hmem : (uid, d) ∈ l) :
    l.Perm ((uid, d) :: l.filter (fun p => !decide (p.1 = uid))) := by
  induction l with
  | nil => simp at hmem
  | cons p l ih =>
    simp only [List.map_cons, List.nodup_cons] at hnd
    rcases List.mem_cons.mp hmem with heq | hmem'
    · obtain rfl := heq.symm
      have hl : l.filter (fun p => !decide (p.1 = uid)) = l := by
        refine List.filter_eq_self.mpr fun q hq => ?_
        have hqu : q.1 ≠ uid := fun he =>
          hnd.1 (he ▸ List.mem_map.mpr ⟨q, hq, rfl⟩)
        simpa using hqu
      rw [List.filter_cons]
      simp [hl]
    · have hpne : ¬ p.1 = uid := fun he =>
        hnd.1 (he ▸ List.mem_map.mpr ⟨(uid, d), hmem', rfl⟩)
      have hq : (!decide (p.1 = uid)) = true := by simpa using hpne
      rw [List.filter_cons]
      simp only [hq, if_true]
      exact ((ih hnd.2 hmem').cons p).trans (List.Perm.swap _ _ _)

theorem evictLoop_users_sublist (sorted : List (String × UserPool.UserData)) :
    ∀ (users : List (String × UserPool.UserData)) (storage : List (String × String))
      (maxSize : ℕ),
      ((UserPool.evictLoop maxSize users storage sorted).1).Sublist users := by
  induction sorted with
  | nil => intro users storage maxSize; exact List.Sublist.refl _
  | cons hd rest ih =>
    intro users storage maxSize
    rcases hd with ⟨uid, d⟩
    simp only [UserPool.evictLoop]
    split
    · exact List.Sublist.refl _
    · exact (ih _ _ _).trans (List.filter_sublist _)

theorem evictLoop_length_le (sorted : List (String × UserPool.UserData)) :
    ∀ (users : List (String × UserPool.UserData)) (storage : List (String × String))
      (maxSize : ℕ),
      users.Perm sorted → (users.map Prod.fst).Nodup →
      ((UserPool.evictLoop maxSize users storage sorted).1).length ≤ maxSize := by
  induction sorted with
  | nil =>
    intro users storage maxSize hperm _
    obtain rfl := hperm.eq_nil
    simp [UserPool.evictLoop]
  | cons hd rest ih =>
    intro users storage maxSize hperm hnd
    rcases hd with ⟨uid, d⟩
    simp only [UserPool.evictLoop]
    split
    · assumption
    · have hmem : (uid, d) ∈ users := hperm.mem_iff.mpr (List.mem_cons_self _ _)
      have hstep := perm_cons_filter_key users uid d hnd hmem
      have hperm' : (users.filter (fun p => !decide (p.1 = uid))).Perm rest :=
        List.Perm.cons_inv (hstep.symm.trans hperm)
      have hnd' : ((users.filter (fun p => !decide (p.1 = uid))).map Prod.fst).Nodup :=
        List.Nodup.sublist ((List.filter_sublist users).map Prod.fst) hnd
      exact ih _ _ maxSize hperm' hnd'

theorem evictLoop_order (sorted : List (String × UserPool.UserData)) :
    ∀ (users : List (String × UserPool.UserData)) (storage : List (String × String))
      (maxSize : ℕ),
      users.Perm sorted → (users.map Prod.fst).Nodup →
      sorted.Sorted UserPool.poolLE →
      ∀ p ∈ users, p ∉ (UserPool.evictLoop maxSize users storage sorted).1 →
      ∀ q ∈ (UserPool.evictLoop maxSize users storage sorted).1,
        UserPool.evictKey p.2 ≤ UserPool.evictKey q.2 := by
  induction sorted with
  | nil =>
    intro users _ _ hperm _ _ p hp _ _ _
    obtain rfl := hperm.eq_nil
    simp at hp
  | cons hd rest ih =>
    intro users storage maxSize hperm hnd hsort p hp hnotin q hq
    rcases hd with ⟨uid, d⟩
    simp only [UserPool.evictLoop] at hnotin hq
    by_cases hlen : users.length ≤ maxSize
    · rw [if_pos hlen] at hnotin
      exact absurd hp hnotin
    · rw [if_neg hlen] at hnotin hq
      have hmem : (uid, d) ∈ users := hperm.mem_iff.mpr (List.mem_cons_self _ _)
      have hstep := perm_cons_filter_key users uid d hnd hmem
      have hperm' : (users.filter (fun p => !decide (p.1 = uid))).Perm rest :=
        List.Perm.cons_inv (hstep.symm.trans hperm)
      have hnd' : ((users.filter (fun p => !decide (p.1 = uid))).map Prod.fst).Nodup :=
        List.Nodup.sublist ((List.filter_sublist users).map Prod.fst) hnd
      have hsort' := (List.sorted_cons.mp hsort).2
      have hhead := (List.sorted_cons.mp hsort).1
      by_cases hpk : p.1 = uid
      · have hpe : p = (uid, d) := pool_key_unique hnd hp hmem hpk
        have hqF : q ∈ users.filter (fun p => !decide (p.1 = uid)) :=
          (evictLoop_users_sublist rest _ _ _).subset hq
        have hqrest : q ∈ rest := hperm'.mem_iff.mp hqF
        have := hhead q hqrest
        rw [hpe]
        exact this
      · have hpF : p ∈ users.filter (fun p => !decide (p.1 = uid)) :=
          List.mem_filter.mpr ⟨hp, by simpa using hpk⟩
        exact ih _ _ _ hperm' hnd' hsort' p hpF hnotin q hq

theorem enforce_users_sublist (s : UserPool.PoolState) :
    ((UserPool.enforce_pool_limit s).users).Sublist s.users := by
  simp only [UserPool.enforce_pool_limit]
  split
  · exact List.Sublist.refl _
  · exact evictLoop_users_sublist _ _ _ _

theorem enforce_max_eq (s : UserPool.PoolState) :
    (UserPool.enforce_pool_limit s).max_pool_size = s.max_pool_size := by
  simp only [UserPool.enforce_pool_limit]
  split <;> rfl

theorem enforce_length_le (s : UserPool.PoolState)
    (hnd : (s.users.map Prod.fst).Nodup) :
    ((UserPool.enforce_pool_limit s).users).length ≤ s.max_pool_size := by
  simp only [UserPool.enforce_pool_limit]
  split
  · assumption
  · exact evictLoop_length_le _ _ _ _ (List.perm_insertionSort _ _).symm hnd

theorem enforce_order (s : UserPool.PoolState) (hnd : (s.users.map Prod.fst).Nodup) :
    ∀ p ∈ s.users, p ∉ (UserPool.enforce_pool_limit s).users →
    ∀ q ∈ (UserPool.enforce_pool_limit s).users,
      UserPool.evictKey p.2 ≤ UserPool.evictKey q.2 := by
  intro p hp hnotin q hq
  simp only [UserPool.enforce_pool_limit] at hnotin hq
  by_cases hlen : s.users.length ≤ s.max_pool_size
  · rw [if_pos hlen] at hnotin
    exact absurd hp hnotin
  · rw [if_neg hlen] at hnotin hq
    exact evictLoop_order _ _ _ _ (List.perm_insertionSort _ _).symm hnd
      (List.sorted_insertionSort _ _) p hp hnotin q hq

theorem updateAssoc_keys_nodup {α : Type} (l : List (String × α)) (k : String) (v : α)
    (h : (l.map Prod.fst).Nodup) : ((UserPool.updateAssoc l k v).map Prod.fst).Nodup := by
  simp only [UserPool.updateAssoc]
  split
  · have hkeys : (l.map (fun p => if p.1 = k then (k, v) else p)).map Prod.fst =
        l.map Prod.fst := by
      rw [List.map_map]
      refine List.map_congr_left fun p hp => ?_
      by_cases hpk : p.1 = k
      · simp [Function.comp, hpk]
      · simp [Function.comp, hpk]
    rw [hkeys]
    exact h
  · rename_i hcond
    rw [List.map_append]
    simp only [List.map_cons, List.map_nil]
    rw [List.nodup_append]
    refine ⟨h, List.nodup_singleton k, fun a ha hb => ?_⟩
    rw [List.mem_singleton] at hb
    rcases List.mem_map.mp ha with ⟨p, hp, hpk⟩
    have hdp : (fun q : String × α => decide (q.1 = k)) p = true := by
      simp [hpk, hb]
    exact hcond (List.any_of_mem hp hdp)

theorem save_keys_nodup (s : UserPool.PoolState) (u : UserPool.User) (b : String) (t : ℚ)
    (h : (s.users.map Prod.fst).Nodup) :
    (((UserPool.save_user_state s u b t).users).map Prod.fst).Nodup :=
  List.Nodup.sublist ((enforce_users_sublist _).map Prod.fst)
    (updateAssoc_keys_nodup s.users u.id _ h)

theorem save_max_eq (s : UserPool.PoolState) (u : UserPool.User) (b : String) (t : ℚ) :
    (UserPool.save_user_state s u b t).max_pool_size = s.max_pool_size :=
  enforce_max_eq _

theorem save_length_le (s : UserPool.PoolState) (u : UserPool.User) (b : String) (t : ℚ)
    (h : (s.users.map Prod.fst).Nodup) :
    ((UserPool.save_user_state s u b t).users).length ≤ s.max_pool_size :=
  enforce_length_le _ (updateAssoc_keys_nodup s.users u.id _ h)

theorem runSaves_le (calls : List UserPool.SaveCall) :
    ∀ s : UserPool.PoolState, (s.users.map Prod.fst).Nodup →
      s.users.length ≤ s.max_pool_size →
      (UserPool.runSaves s calls).users.length ≤ s.max_pool_size ∧
      (((UserPool.runSaves s calls).users).map Prod.fst).Nodup := by
  induction calls with
  | nil => intro s h1 h2; exact ⟨h2, h1⟩
  | cons c cs ih =>
    intro s h1 h2
    have h1' := save_keys_nodup s c.user c.storage c.now h1
    have h2' : (UserPool.save_user_state s c.user c.storage c.now).users.length ≤
        (UserPool.save_user_state s c.user c.storage c.now).max_pool_size := by
      rw [save_max_eq]
      exact save_length_le s c.user c.storage c.now h1
    have hrec := ih _ h1' h2'
    rw [save_max_eq] at hrec
    simpa only [UserPool.runSaves] using hrec

/-- C8 counterexample: a `UserPool` constructed with a config that does not
set `max_pool_size` gets the constructor default 50, not the 200 the claim
states. -/
theorem c8_counterexample :
    (UserPool.init { returning_user_rate := none, max_pool_size := none }).max_pool_size = 50 ∧
    (50 : ℕ) ≠ 200 :=
  ⟨rfl, by decide⟩

/-- C8 (amended): after any number of `save_user_state` calls the pool holds
at most `max_pool_size` users; the `UserPool.__init__` default when the
option is absent from its config dict is 50 (the 200 of the claim is the
`DEFAULT_USERS` value that `config.py` supplies through the runner); and
whenever eviction occurs, every evicted user's last-visit key (unset treated
as the epoch, i.e. oldest) is at most every surviving user's. -/
theorem c8_amended :
    (∀ (cfg : UserPool.PoolConfig) (calls : List UserPool.SaveCall),
       (UserPool.runSaves (UserPool.init cfg) calls).users.length ≤
         (UserPool.init cfg).max_pool_size) ∧
    (UserPool.init { returning_user_rate := none, max_pool_size := none }).max_pool_size = 50 ∧
    (UserPool.init UserPool.DEFAULT_USERS).max_pool_size = 200 ∧
    (∀ s : UserPool.PoolState, (s.users.map Prod.fst).Nodup →
       ∀ p ∈ s.users, p ∉ (UserPool.enforce_pool_limit s).users →
       ∀ q ∈ (UserPool.enforce_pool_limit s).users,
         UserPool.evictKey p.2 ≤ UserPool.evictKey q.2) :=
  ⟨fun cfg calls =>
      (runSaves_le calls (UserPool.init cfg) (by simp [UserPool.init])
        (by simp [UserPool.init])).1,
   rfl, rfl, fun s hnd => enforce_order s hnd⟩

/-- C8 witness: two saves into a cap-1 pool leave at most one user, and in a
concrete over-capacity pool the evicted user's last-visit key is at most the
survivor's. -/
theorem c8_witness :
    (UserPool.runSaves (UserPool.init Fixtures.cfgOne) Fixtures.twoSaves).users.length ≤
      (UserPool.init Fixtures.cfgOne).max_pool_size ∧
    UserPool.evictKey Fixtures.udB ≤ UserPool.evictKey Fixtures.udA :=
  ⟨c8_amended.1 Fixtures.cfgOne Fixtures.twoSaves,
   c8_amended.2.2.2 Fixtures.poolTwo (by decide) ("ub", Fixtures.udB) (by decide)
     (by decide) ("ua", Fixtures.udA) (by decide)⟩

theorem allowedTimes_nil (s : RateLimiter.RLState) (ip : String) :
    RateLimiter.allowedTimes s [] ip = [] := rfl

theorem allowedTimes_cons (s : RateLimiter.RLState) (j : String) (t : ℚ)
    (rest : List (String × ℚ)) (ip : String) :
    RateLimiter.allowedTimes s ((j, t) :: rest) ip =
      (if (RateLimiter.check_and_record s j t).1 = true ∧ j = ip then [t] else []) ++
      RateLimiter.allowedTimes (RateLimiter.check_and_record s j t).2 rest ip := by
  simp only [RateLimiter.allowedTimes, RateLimiter.runCalls, List.filter_append,
    List.map_append]
  congr 1
  by_cases hok : (RateLimiter.check_and_record s j t).1 = true
  · by_cases hj : j = ip
    · rw [if_pos hok, if_pos ⟨hok, hj⟩]
      simp [List.filter_cons, hj]
    · rw [if_pos hok, if_neg (by tauto)]
      simp [List.filter_cons, hj]
  · rw [if_neg hok, if_neg (by tauto)]
    rfl

theorem check_and_record_spec (s : RateLimiter.RLState) (ip : String) (now : ℚ) :
    ((RateLimiter.check_and_record s ip now).1 = false ∧
     (RateLimiter.check_and_record s ip now).2 = RateLimiter.cleanup now s) ∨
    ((RateLimiter.check_and_record s ip now).1 = true ∧
     (((RateLimiter.cleanup now s).hourly ip).filter
        (fun x => decide (now - 3600 < x))).length + 1 ≤ 3 ∧
     (((RateLimiter.cleanup now s).daily ip).filter
        (fun x => decide (now - 86400 < x))).length + 1 ≤ 10 ∧
     (RateLimiter.check_and_record s ip now).2 =
       { RateLimiter.cleanup now s with
         hourly := Function.update (RateLimiter.cleanup now s).hourly ip
           ((RateLimiter.cleanup now s).hourly ip ++ [now]),
         daily := Function.update (RateLimiter.cleanup now s).daily ip
           ((RateLimiter.cleanup now s).daily ip ++ [now]) }) := by
  simp only [RateLimiter.check_and_record, RateLimiter.RATE_LIMIT_HOURLY,
    RateLimiter.RATE_LIMIT_DAILY]
  split
  · left; exact ⟨rfl, rfl⟩
  · split
    · left; exact ⟨rfl, rfl⟩
    · rename_i h1 h2
      right
      refine ⟨rfl, by omega, by omega, rfl⟩

/-- Generic sliding-window invariant for one window of the rate limiter: if
every allowed call appends its timestamp to the tracked per-IP list, an
allowed call implies fewer than `cap` live entries, and cleanup only drops
expired entries, then no trailing window of length `window` ever contains
more than `cap` allowed requests. -/
theorem window_invariant (window : ℚ) (cap : ℕ)
    (get : RateLimiter.RLState → String → List ℚ) (ip : String) (hw : 0 < window)
    (hclean : ∀ (now : ℚ) (s : RateLimiter.RLState),
      get (RateLimiter.cleanup now s) ip = get s ip ∨
      get (RateLimiter.cleanup now s) ip =
        (get s ip).filter (fun x => decide (now - window < x)))
    (hfalse : ∀ (s : RateLimiter.RLState) (j : String) (now : ℚ),
      (RateLimiter.check_and_record s j now).1 = false →
      get (RateLimiter.check_and_record s j now).2 ip =
        get (RateLimiter.cleanup now s) ip)
    (htrue_bound : ∀ (s : RateLimiter.RLState) (now : ℚ),
      (RateLimiter.check_and_record s ip now).1 = true →
      ((get (RateLimiter.cleanup now s) ip).filter
        (fun x => decide (now - window < x))).length + 1 ≤ cap)
    (htrue_self : ∀ (s : RateLimiter.RLState) (now : ℚ),
      (RateLimiter.check_and_record s ip now).1 = true →
      get (RateLimiter.check_and_record s ip now).2 ip =
        get (RateLimiter.cleanup now s) ip ++ [now])
    (htrue_other : ∀ (s : RateLimiter.RLState) (j : String) (now : ℚ), j ≠ ip →
      (RateLimiter.check_and_record s j now).1 = true →
      get (RateLimiter.check_and_record s j now).2 ip =
        get (RateLimiter.cleanup now s) ip) :
    ∀ (calls : List (String × ℚ)) (s : RateLimiter.RLState) (past : List ℚ) (lastT : ℚ),
      List.Chain (fun a b : ℚ => a ≤ b) lastT (calls.map Prod.snd) →
      (∀ x ∈ past, x ≤ lastT) →
      (past.filter (fun x => decide (lastT - window < x))).Subperm (get s ip) →
      (∀ T : ℚ, (past.filter
        (fun x => decide (T - window < x) && decide (x ≤ T))).length ≤ cap) →
      ∀ T : ℚ, (((past ++ RateLimiter.allowedTimes s calls ip).filter
        (fun x => decide (T - window < x) && decide (x ≤ T))).length ≤ cap) := by
  intro calls
  induction calls with
  | nil =>
    intro s past lastT _ _ _ hcount T
    simpa [allowedTimes_nil] using hcount T
  | cons c rest ih =>
    rcases c with ⟨j, t⟩
    intro s past lastT hchain hpast hsub hcount T
    rw [List.map_cons] at hchain
    obtain ⟨hlt, hchain'⟩ := List.chain_cons.mp hchain
    rw [allowedTimes_cons]
    have hmono : ∀ x : ℚ, (decide (t - window < x)) = true →
        (decide (lastT - window < x)) = true := by
      intro x hx
      simp only [decide_eq_true_eq] at hx ⊢
      linarith
    have hsub_t : (past.filter (fun x => decide (t - window < x))).Subperm
        (get (RateLimiter.cleanup t s) ip) := by
      rcases hclean t s with hc | hc
      · rw [hc]
        exact ((List.monotone_filter_right past hmono).subperm).trans hsub
      · rw [hc]
        have h1 : (past.filter (fun x => decide (lastT - window < x))).filter
            (fun x => decide (t - window < x)) =
            past.filter (fun x => decide (t - window < x)) := by
          rw [List.filter_filter]
          refine List.filter_congr fun x _ => ?_
          by_cases hx2 : t - window < x
          · have hx3 : lastT - window < x := by linarith
            simp [hx2, hx3]
          · simp [hx2]
        rw [← h1]
        exact List.Subperm.filter _ hsub
    have hpast_t : ∀ x ∈ past, x ≤ t := fun x hx => (hpast x hx).trans hlt
    by_cases hok : (RateLimiter.check_and_record s j t).1 = true
    · by_cases hj : j = ip
      · subst hj
        rw [if_pos ⟨hok, rfl⟩]
        have hself := htrue_self s t hok
        have hbound := htrue_bound s t hok
        have hpast' : ∀ x ∈ past ++ [t], x ≤ t := by
          intro x hx
          rcases List.mem_append.mp hx with hx | hx
          · exact hpast_t x hx
          · rw [List.mem_singleton.mp hx]
        have ht_in : ([t].filter (fun x => decide (t - window < x))) = [t] := by
          have : t - window < t := by linarith
          simp [this]
        have hsub' : ((past ++ [t]).filter (fun x => decide (t - window < x))).Subperm
            (get (RateLimiter.check_and_record s j t).2 j) := by
          rw [List.filter_append, hself, ht_in]
          exact (List.subperm_append_right [t]).mpr hsub_t
        have hcount' : ∀ T' : ℚ, ((past ++ [t]).filter
            (fun x => decide (T' - window < x) && decide (x ≤ T'))).length ≤ cap := by
          intro T'
          rw [List.filter_append]
          by_cases hT : (decide (T' - window < t) && decide (t ≤ T')) = true
          · have h2 : ([t].filter
                (fun x => decide (T' - window < x) && decide (x ≤ T'))) = [t] := by
              simp only [List.filter_cons, hT, if_true, List.filter_nil]
            rw [h2, List.length_append]
            simp only [Bool.and_eq_true, decide_eq_true_eq] at hT
            have hmono2 : ∀ x : ℚ,
                (decide (T' - window < x) && decide (x ≤ T')) = true →
                (decide (t - window < x)) = true := by
              intro x hx
              simp only [Bool.and_eq_true, decide_eq_true_eq] at hx
              simp only [decide_eq_true_eq]
              rcases hT with ⟨hT1, hT2⟩
              rcases hx with ⟨hx1, hx2⟩
              linarith
            have h3 := (List.monotone_filter_right past hmono2).length_le
            have hidem : (past.filter (fun x => decide (t - window < x))).filter
                (fun x => decide (t - window < x)) =
                past.filter (fun x => decide (t - window < x)) :=
              List.filter_eq_self.mpr fun x hx => (List.mem_filter.mp hx).2
            have h4 := (List.Subperm.filter (fun x => decide (t - window < x)) hsub_t)
            rw [hidem] at h4
            have h5 := h4.length_le
            have h6 := hbound
            simp only [List.length_cons, List.length_nil]
            omega
          · have h2 : ([t].filter
                (fun x => decide (T' - window < x) && decide (x ≤ T'))) = [] := by
              simp only [List.filter_cons, hT, Bool.false_eq_true, if_false, List.filter_nil]
            rw [h2, List.append_nil]
            exact hcount T'
        have hres := ih (RateLimiter.check_and_record s j t).2 (past ++ [t]) t
          hchain' hpast' hsub' hcount' T
        simpa [List.append_assoc] using hres
      · rw [if_neg (by tauto)]
        have hother := htrue_other s j t hj hok
        exact ih (RateLimiter.check_and_record s j t).2 past t hchain' hpast_t
          (by rw [hother]; exact hsub_t) hcount T
    · rw [if_neg (by tauto)]
      have hfalse' := hfalse s j t (Bool.eq_false_iff.mpr hok)
      exact ih (RateLimiter.check_and_record s j t).2 past t hchain' hpast_t
        (by rw [hfalse']; exact hsub_t) hcount T

theorem cleanup_hourly_cases (ip : String) (now : ℚ) (s : RateLimiter.RLState) :
    (RateLimiter.cleanup now s).hourly ip = s.hourly ip ∨
    (RateLimiter.cleanup now s).hourly ip =
      (s.hourly ip).filter (fun x => decide (now - 3600 < x)) := by
  simp only [RateLimiter.cleanup]
  split
  · exact Or.inl rfl
  · exact Or.inr rfl

theorem cleanup_daily_cases (ip : String) (now : ℚ) (s : RateLimiter.RLState) :
    (RateLimiter.cleanup now s).daily ip = s.daily ip ∨
    (RateLimiter.cleanup now s).daily ip =
      (s.daily ip).filter (fun x => decide (now - 86400 < x)) := by
  simp only [RateLimiter.cleanup]
  split
  · exact Or.inl rfl
  · exact Or.inr rfl

theorem check_false_state (s : RateLimiter.RLState) (j : String) (now : ℚ)
    (h : (RateLimiter.check_and_record s j now).1 = false) :
    (RateLimiter.check_and_record s j now).2 = RateLimiter.cleanup now s := by
  rcases check_and_record_spec s j now with ⟨-, h2⟩ | ⟨h1, -⟩
  · exact h2
  · rw [h1] at h
    simp at h

theorem check_true_state (s : RateLimiter.RLState) (ip : String) (now : ℚ)
    (h : (RateLimiter.check_and_record s ip now).1 = true) :
    ((((RateLimiter.cleanup now s).hourly ip).filter
        (fun x => decide (now - 3600 < x))).length + 1 ≤ 3) ∧
    ((((RateLimiter.cleanup now s).daily ip).filter
        (fun x => decide (now - 86400 < x))).length + 1 ≤ 10) ∧
    (RateLimiter.check_and_record s ip now).2.hourly =
      Function.update (RateLimiter.cleanup now s).hourly ip
        ((RateLimiter.cleanup now s).hourly ip ++ [now]) ∧
    (RateLimiter.check_and_record s ip now).2.daily =
      Function.update (RateLimiter.cleanup now s).daily ip
        ((RateLimiter.cleanup now s).daily ip ++ [now]) := by
  rcases check_and_record_spec s ip now with ⟨h1, -⟩ | ⟨-, hb, hd, hst⟩
  · rw [h1] at h
    simp at h
  · exact ⟨hb, hd, by rw [hst], by rw [hst]⟩

/-- C4: for every IP and every time-ordered call sequence, the limiter never
allows (and records) more than 3 requests with timestamps inside any trailing
3600-second window, nor more than 10 inside any trailing 86400-second
window. -/
theorem c4_rate_limiter (t0 : ℚ) (calls : List (String × ℚ)) (ip : String) (T : ℚ)
    (hmono : calls.Chain' (fun a b : String × ℚ => a.2 ≤ b.2)) :
    ((RateLimiter.allowedTimes (RateLimiter.init t0) calls ip).filter
      (fun x => decide (T - 3600 < x) && decide (x ≤ T))).length ≤
      RateLimiter.RATE_LIMIT_HOURLY ∧
    ((RateLimiter.allowedTimes (RateLimiter.init t0) calls ip).filter
      (fun x => decide (T - 86400 < x) && decide (x ≤ T))).length ≤
      RateLimiter.RATE_LIMIT_DAILY := by
  cases calls with
  | nil =>
    simp [allowedTimes_nil, RateLimiter.RATE_LIMIT_HOURLY, RateLimiter.RATE_LIMIT_DAILY]
  | cons c rest =>
    have hchain : List.Chain (fun a b : ℚ => a ≤ b) c.2 ((c :: rest).map Prod.snd) := by
      rw [List.map_cons]
      refine List.chain_cons.mpr ⟨le_refl _, ?_⟩
      have h2 : List.Chain' (fun a b : ℚ => a ≤ b) (List.map Prod.snd (c :: rest)) :=
        (List.chain'_map Prod.snd).mpr hmono
      rw [List.map_cons] at h2
      exact h2
    constructor
    · have h := window_invariant 3600 3 (fun st i => st.hourly i) ip (by norm_num)
        (fun now s => cleanup_hourly_cases ip now s)
        (fun s j now hf => by rw [check_false_state s j now hf])
        (fun s now ht => (check_true_state s ip now ht).1)
        (fun s now ht => by
          dsimp only
          rw [(check_true_state s ip now ht).2.2.1]
          exact Function.update_same ip _ _)
        (fun s j now hj ht => by
          dsimp only
          rw [(check_true_state s j now ht).2.2.1]
          exact Function.update_noteq (Ne.symm hj) _ _)
        (c :: rest) (RateLimiter.init t0) [] c.2 hchain (by simp)
        (by simpa using List.nil_subperm) (by simp) T
      simpa [RateLimiter.RATE_LIMIT_HOURLY] using h
    · have h := window_invariant 86400 10 (fun st i => st.daily i) ip (by norm_num)
        (fun now s => cleanup_daily_cases ip now s)
        (fun s j now hf => by rw [check_false_state s j now hf])
        (fun s now ht => (check_true_state s ip now ht).2.1)
        (fun s now ht => by
          dsimp only
          rw [(check_true_state s ip now ht).2.2.2]
          exact Function.update_same ip _ _)
        (fun s j now hj ht => by
          dsimp only
          rw [(check_true_state s j now ht).2.2.2]
          exact Function.update_noteq (Ne.symm hj) _ _)
        (c :: rest) (RateLimiter.init t0) [] c.2 hchain (by simp)
        (by simpa using List.nil_subperm) (by simp) T
      simpa [RateLimiter.RATE_LIMIT_DAILY] using h

/-- C4 witness: four immediate calls from one IP, window ending at time 3:
the recorded requests in the trailing hour stay within 3 (the fourth call is
rejected) and within 10 for the day. -/
theorem c4_witness :
    ((RateLimiter.allowedTimes (RateLimiter.init 0) Fixtures.fourCalls "a").filter
      (fun x => decide ((3 : ℚ) - 3600 < x) && decide (x ≤ (3 : ℚ)))).length ≤
      RateLimiter.RATE_LIMIT_HOURLY ∧
    ((RateLimiter.allowedTimes (RateLimiter.init 0) Fixtures.fourCalls "a").filter
      (fun x => decide ((3 : ℚ) - 86400 < x) && decide (x ≤ (3 : ℚ)))).length ≤
      RateLimiter.RATE_LIMIT_DAILY :=
  c4_rate_limiter 0 Fixtures.fourCalls "a" 3
    (by norm_num [Fixtures.fourCalls, List.chain'_cons, List.chain'_singleton])
